import Mathlib

/-!
Shallow embedding of the SnowCat course-availability watcher
(src/SnowCat.py): the `fetch` result processing, the credential-update
helpers `_update_headers_from_request` / `_update_params_from_request`,
the `refresh` credential effect, the DUO two-factor wait loop of
`refresh`, and the `watch` polling loop's failure policy.

External effects (HTTP GET, browser automation, logging, sounds, sleeps)
are modelled as inputs/events: the GET response body is an input to
`fetch`, the intercepted request is an input to the credential update,
DOM visibility observations are an input stream to the DUO loop, and the
per-iteration fetch outcome is an input stream to the watch loop.
-/

set_option autoImplicit false

namespace SnowCat

/-! ### Python dicts of strings

`self.params` and `self.headers` are Python `dict`s with string keys.
A dict is modelled as an association list with unique keys in insertion
order; `dictSet` is Python `d[k] = v` (update in place if the key exists,
else append), `dictGet` is `d.get(k)`. -/

abbrev Dict := List (String × String)

/-- Python `d.get(k)`: value of the first entry with key `k`, if any. -/
def dictGet : Dict → String → Option String
  | [], _ => none
  | (k1, v1) :: rest, k => if k1 = k then some v1 else dictGet rest k

/-- Python `d[k] = v`: overwrite the entry for `k` in place, or append. -/
def dictSet : Dict → String → String → Dict
  | [], k, v => [(k, v)]
  | (k1, v1) :: rest, k, v =>
      if k1 = k then (k, v) :: rest else (k1, v1) :: dictSet rest k v

/-! ### The JSON response body of the availability GET

`fetch` reads `response["data"]` (a list of course entries, each a dict
with a `courseReferenceNumber` and a `seatsAvailable`) and tests/reads
`response["success"]`.  `Option` encodes an absent key. -/

/-- One entry of the response's `data` list. -/
structure Candidate where
  courseReferenceNumber : String
  seatsAvailable : Int
  deriving DecidableEq, Repr

/-- The parsed JSON body, as far as `fetch` inspects it.
`success = none` / `data = none` model a missing key. -/
structure RespBody where
  success : Option Bool
  data : Option (List Candidate)
  deriving DecidableEq, Repr

/-- The exception classes `fetch` can let escape.  `fetchValueError` is
the `ValueError` raised by `fetch`'s own `raise` statements (the spec's
`FetchError`); `jsonDecodeError` models `response.json()` failing (it is
raised before the `try` block); `keyError` models a Python `KeyError`
escaping unwrapped (in particular from `response['success']` inside an
f-string of a `raise` line when the key is absent). -/
inductive PyError where
  | fetchValueError (msg : String)
  | jsonDecodeError
  | keyError (key : String)
  deriving DecidableEq, Repr

/-! ### The `course_ids` argument

`fetch` accepts a scalar (`int | str`) or a `list`/`tuple`/`set` of such;
all three container types are iterated the same way
(`list(str(ci) for ci in course_ids)`), so they are modelled by one
`coll` constructor carrying the iteration order. -/

/-- A course id as passed by the caller: Python `int` or `str`. -/
inductive IdVal where
  | intId (n : Int)
  | strId (s : String)
  deriving DecidableEq, Repr

/-- Python `str(ci)` on a course id. -/
def IdVal.toStr : IdVal → String
  | .intId n => toString n
  | .strId s => s

/-- The `course_ids` argument: a scalar, or a list/tuple/set. -/
inductive CourseIds where
  | scalar (v : IdVal)
  | coll (vs : List IdVal)
  deriving DecidableEq, Repr

/-- The normalisation `fetch` performs on `course_ids`:
`list(str(ci) for ci in course_ids)` for a container, `[str(course_ids)]`
for a scalar. -/
def normalizeIds : CourseIds → List String
  | .scalar v => [v.toStr]
  | .coll vs => vs.map IdVal.toStr

/-- Python `'True'` / `'False'` as interpolated into f-strings. -/
def pyBoolStr (b : Bool) : String :=
  if b then "True" else "False"

/-! ### `fetch` (src/SnowCat.py lines 45-91)

The processing of the GET response.  The response body is an input:
`none` models a body that is not valid JSON (so `response.json()` raised,
outside the `try`).  Mirrors the source line by line:

```
response = response.json()
try:
    candidate_list = response["data"]
    if course_ids is None:
        if "success" in response:
            return candidate_list
        else:
            raise ValueError(f"failed to fetch, state: {response['success']}")
    else:
        course_ids = [str(ci) for ci in ...]
        return [c for c in candidate_list
                if c["courseReferenceNumber"] in course_ids]
except Exception as e:
    raise ValueError(f"failed to fetch: {e}, state: {response['success']}")
```

Note the membership test `"success" in response` (not a truth test of the
value), and that both `raise ValueError` lines interpolate
`response['success']`, which itself raises `KeyError` when the key is
absent; a `KeyError` raised while building the message in the `except`
handler escapes unwrapped. -/
def fetchBody (resp : Option RespBody) (course_ids : Option CourseIds) :
    Except PyError (List Candidate) :=
  match resp with
  | none => .error .jsonDecodeError
  | some r =>
    match r.data with
    | none =>
      -- KeyError('data') is caught; the handler's f-string then reads
      -- response['success'].
      match r.success with
      | none => .error (.keyError "success")
      | some s =>
          .error (.fetchValueError
            ("failed to fetch: 'data', state: " ++ pyBoolStr s))
    | some candidate_list =>
      match course_ids with
      | none =>
        if r.success.isSome then
          .ok candidate_list
        else
          -- raise ValueError(f"..., state: {response['success']}") with
          -- 'success' absent: the f-string raises KeyError inside the
          -- try; the except handler's f-string raises KeyError again,
          -- unwrapped.
          .error (.keyError "success")
      | some ids =>
          .ok (candidate_list.filter
            (fun c => (normalizeIds ids).contains c.courseReferenceNumber))

/-- The mutation `fetch` performs on `self.params` before issuing the GET
(src/SnowCat.py lines 60-61):
`self.params["txt_subject"] = course_abb;`
`self.params["txt_courseNumber"] = course_num`. -/
def fetchParamsUpdate (params : Dict) (course_abb course_num : String) : Dict :=
  dictSet (dictSet params "txt_subject" course_abb) "txt_courseNumber" course_num

/-- Result of one `fetch` call: the `self.params` state after the call
and the outcome (returned list or escaped exception). -/
structure FetchResult where
  newParams : Dict
  outcome : Except PyError (List Candidate)
  deriving Repr

/-- One `fetch` call as a state transformer on `self.params`.  The params
are written before the GET is issued, so they are mutated whether or not
the call succeeds; `resp` is the body the GET came back with. -/
def fetch (params : Dict) (course_abb course_num : String)
    (course_ids : Option CourseIds) (resp : Option RespBody) : FetchResult :=
  { newParams := fetchParamsUpdate params course_abb course_num
    outcome := fetchBody resp course_ids }

/-! ### The intercepted request and the credential-update helpers
(src/SnowCat.py lines 93-117)

The intercepted Playwright request is modelled by its headers and the
list of `key=value` pairs of its URL's query string, in order.  `none`
models `req is None`. -/

/-- The intercepted request, as far as the helpers inspect it. -/
structure Request where
  all_headers : Dict
  urlQuery : List (String × String)
  deriving DecidableEq, Repr

/-- `parse_qs(urlparse(url).query)[k]`: the list of values for key `k`,
in query order.  `urllib.parse.parse_qs` with default
`keep_blank_values=False` drops pairs whose value is empty, and a key
with no remaining values is absent from the dict (`[]` here). -/
def parse_qs_get (query : List (String × String)) (k : String) : List String :=
  (query.filter (fun p => p.1 = k ∧ p.2 ≠ "")).map Prod.snd

/-- `_update_headers_from_request`: no-op for `req is None`, otherwise
`self.headers = dict(req.all_headers())` — a wholesale replacement. -/
def update_headers_from_request (headers : Dict) (req : Option Request) : Dict :=
  match req with
  | none => headers
  | some r => r.all_headers

/-- `_update_params_from_request`: no-op for `req is None`; otherwise, if
the intercepted URL's query string has a `uniqueSessionId` key with a
non-empty value list, write its first value into `self.params`; the rest
of `self.params` is left as it was. -/
def update_params_from_request (params : Dict) (req : Option Request) : Dict :=
  match req with
  | none => params
  | some r =>
    match parse_qs_get r.urlQuery "uniqueSessionId" with
    | [] => params
    | v :: _ => dictSet params "uniqueSessionId" v

/-- The credential snapshot: `self.headers` and `self.params`. -/
structure Credentials where
  headers : Dict
  params : Dict
  deriving DecidableEq, Repr

/-- The credential effect of a completed `refresh`
(src/SnowCat.py lines 195-197): the two update helpers applied to the
intercepted request. -/
def refreshCredUpdate (c : Credentials) (req : Option Request) : Credentials :=
  { headers := update_headers_from_request c.headers req
    params := update_params_from_request c.params req }

/-! ### The DUO two-factor wait loop (src/SnowCat.py lines 154-167)

Each iteration observes the visibility of the try-again button and the
trust-browser button and runs the `if/elif/elif` chain:

```
while True:
    if try_again_btn.is_visible() and (not trust_btn.is_visible()):
        try_again_btn.first.click(); page.wait_for_load_state(...); continue
    elif (not try_again_btn.is_visible()) and (not trust_btn.is_visible()):
        page.wait_for_timeout(max(10, timeout // 10))
    elif (not try_again_btn.is_visible()) and trust_btn.is_visible():
        trust_btn.click(); break
```

The visibility observations are an input stream `obs : Nat → DuoObs`
(iteration `i` observes `obs i`).  Note the chain has no branch for
"both visible": in that state no statement runs and the loop goes round
again. -/

/-- One visibility observation of the two DUO buttons. -/
structure DuoObs where
  retryVisible : Bool
  trustVisible : Bool
  deriving DecidableEq, Repr

/-- What one iteration of the DUO wait loop does. -/
inductive DuoAction where
  | clickRetry
  | idleWait
  | clickTrust
  | noAction
  deriving DecidableEq, Repr

/-- The `if/elif/elif` chain of one DUO loop iteration.  `noAction` is
the fall-through case (both buttons visible): no branch is taken. -/
def duoStep (o : DuoObs) : DuoAction :=
  if o.retryVisible ∧ ¬o.trustVisible then .clickRetry
  else if ¬o.retryVisible ∧ ¬o.trustVisible then .idleWait
  else if ¬o.retryVisible ∧ o.trustVisible then .clickTrust
  else .noAction

/-- The DUO wait loop, run for at most `fuel` iterations starting at
observation index `i`.  Returns the actions taken when the loop reaches
`break` (a `clickTrust`), and `none` when it has not terminated within
`fuel` iterations. -/
def duoLoop (obs : Nat → DuoObs) : Nat → Nat → Option (List DuoAction)
  | 0, _ => none
  | fuel + 1, i =>
    match duoStep (obs i) with
    | .clickTrust => some [.clickTrust]
    | a => (duoLoop obs fuel (i + 1)).map (fun as => a :: as)

/-! ### The `watch` loop's failure policy (src/SnowCat.py lines 247-265)

```
while True:
    try:
        response_list = self.fetch(...)
        self.was_failed = False
    except Exception as e:
        if self.was_failed:
            self.logger.error(...); winsound.MessageBeep(); return
        else:
            self.was_failed = True
            self.refresh(...)
            continue
    else:
        on_trigger(response_list, self.logger)
    time.sleep(interval)
```

Each iteration's fetch outcome (return value or escaped exception) is an
input; iterations are driven by a finite list of observed outcomes.
`refresh` is modelled as succeeding (a `RefreshError` would propagate
out of `watch`, which none of the claims here concern). -/

/-- The outcome of one `fetch` call as seen by the watch loop. -/
inductive FetchOut where
  | ok (results : List Candidate)
  | err
  deriving DecidableEq, Repr

/-- Observable events of the watch loop. -/
inductive Event where
  | triggered (results : List Candidate)
  | refreshed
  | aborted
  deriving DecidableEq, Repr

/-- The watch loop run over a finite list of fetch outcomes, starting
with failure flag `wasFailed`.  Returns the events in order, and the
final state: `some b` when the outcomes ran out with the loop still
going and `was_failed = b`, `none` when the loop returned (aborted)
without consuming the remaining outcomes. -/
def watchRun (wasFailed : Bool) : List FetchOut → List Event × Option Bool
  | [] => ([], some wasFailed)
  | .ok rs :: rest =>
    let t := watchRun false rest
    (.triggered rs :: t.1, t.2)
  | .err :: rest =>
    if wasFailed then ([.aborted], none)
    else
      let t := watchRun true rest
      (.refreshed :: t.1, t.2)

/-! ### Concrete sample data used by closed theorems and witnesses -/

/-- Sample course entry with reference number 31375. -/
def cand0 : Candidate := { courseReferenceNumber := "31375", seatsAvailable := 2 }

/-- Sample course entry with reference number 31376. -/
def cand1 : Candidate := { courseReferenceNumber := "31376", seatsAvailable := 0 }

/-- A well-formed successful response body. -/
def respEx : RespBody := { success := some true, data := some [cand0, cand1] }

/-- Sample credentials holding one stale header and one stale param. -/
def credEx : Credentials :=
  { headers := [("stale-header", "x")], params := [("foo", "bar")] }

/-- Sample intercepted request whose URL query carries a session id. -/
def reqEx : Request :=
  { all_headers := [("cookie", "fresh")]
    urlQuery := [("uniqueSessionId", "abc123"), ("foo2", "1")] }

/-- Sample intercepted request whose URL query has no usable session id
(the only `uniqueSessionId` pair has an empty value, which `parse_qs`
drops). -/
def reqNoSid : Request :=
  { all_headers := [("cookie", "fresh")]
    urlQuery := [("foo2", "1"), ("uniqueSessionId", "")] }

/-- The constantly observed DUO state with both buttons visible. -/
def bothVisible : DuoObs := { retryVisible := true, trustVisible := true }

/-! ### Dict lemmas shared by several claims -/

theorem dictGet_dictSet_self (d : Dict) (k v : String) :
    dictGet (dictSet d k v) k = some v := by
  induction d with
  | nil => simp [dictGet, dictSet]
  | cons p rest ih =>
    obtain ⟨k1, v1⟩ := p
    by_cases h : k1 = k <;> simp [dictGet, dictSet, h, ih]

theorem dictGet_dictSet_ne (d : Dict) (k v k2 : String) (h : k2 ≠ k) :
    dictGet (dictSet d k v) k2 = dictGet d k2 := by
  have hne : k ≠ k2 := Ne.symm h
  induction d with
  | nil => simp [dictGet, dictSet, hne]
  | cons p rest ih =>
    obtain ⟨k1, v1⟩ := p
    by_cases h1 : k1 = k
    · subst h1
      simp [dictGet, dictSet, hne]
    · simp [dictGet, dictSet, h1, ih]

/-! ### The claims -/

/-- Claim C1.  The claim says: for every response whose JSON body has
`success` equal to `false`, `fetch` raises (never returns any list),
whether `course_ids` is `None` or set.  The code instead tests key
membership, `"success" in response`, so with `success = false` and
`data` present it RETURNS the list: the full list for
`course_ids = None` and the filtered list for `course_ids` set.  This
theorem evaluates the code at that failing input. -/
theorem claim_C1 :
    fetchBody (some { success := some false, data := some [cand0, cand1] }) none
      = .ok [cand0, cand1]
  ∧ fetchBody (some { success := some false, data := some [cand0, cand1] })
      (some (.scalar (.intId 31375)))
      = .ok [cand0] := by
  constructor <;> rfl

/-- Claim C2.  The claim says: any JSON parse error or missing expected
field makes `fetch` raise a wrapped `ValueError`, never an unwrapped
exception of another type.  The code violates this: on a body missing
the `success` key, the `raise ValueError(f"... {response['success']}")`
lines themselves raise `KeyError('success')`, which escapes unwrapped
(first three conjuncts: body missing both keys, with either
`course_ids` setting, and body missing only `success`); and
`response.json()` stands before the `try` block, so a parse error
escapes without the wrap (last conjunct). -/
theorem claim_C2 :
    fetchBody (some { success := none, data := none }) none
      = .error (.keyError "success")
  ∧ fetchBody (some { success := none, data := none })
      (some (.scalar (.intId 31375))) = .error (.keyError "success")
  ∧ fetchBody (some { success := none, data := some [cand0] }) none
      = .error (.keyError "success")
  ∧ fetchBody none none = .error .jsonDecodeError := by
  refine ⟨rfl, rfl, rfl, rfl⟩

/-- Claim C3: after two consecutive fetch failures the watch loop
terminates; between the second failure and termination the trigger is
not invoked again and `refresh` is not called a second time.  Whatever
outcomes would follow are never consumed: starting not-failed, the
events are exactly one `refreshed` then `aborted`; starting already
failed, exactly `aborted`. -/
theorem claim_C3 (rest : List FetchOut) :
    watchRun false (.err :: .err :: rest) = ([.refreshed, .aborted], none)
  ∧ watchRun true (.err :: .err :: rest) = ([.aborted], none) := by
  constructor <;> simp [watchRun]

/-- Claim C4: the `was_failed` bit steps false→true on a first failure
(with a refresh), true→abort on a second consecutive failure, and resets
to false on any successful fetch; hence fail, successful refresh,
successful fetch, then a later single failure is treated as a first
failure again (a second `refreshed`, not `aborted`). -/
theorem claim_C4 :
    (∀ (b : Bool) (rs : List Candidate),
        watchRun b [.ok rs] = ([.triggered rs], some false))
  ∧ watchRun false [.err] = ([.refreshed], some true)
  ∧ watchRun true [.err] = ([.aborted], none)
  ∧ (∀ (rs : List Candidate) (rest : List FetchOut),
        watchRun false (.err :: .ok rs :: .err :: rest)
          = (.refreshed :: .triggered rs :: .refreshed :: (watchRun true rest).1,
             (watchRun true rest).2)) := by
  refine ⟨fun b rs => by cases b <;> rfl, rfl, rfl, fun rs rest => ?_⟩
  simp [watchRun]

/-- For comparison with claim C5, modelled from the spec's words ("the
query-params mapping [is] exactly [that] recovered from the intercepted
request, not a field-by-field merge"): the params mapping recovered from
the intercepted request alone. -/
def specWholesaleParams (r : Request) : Dict :=
  match parse_qs_get r.urlQuery "uniqueSessionId" with
  | [] => []
  | v :: _ => [("uniqueSessionId", v)]

/-- Claim C5, counterexample.  After the refresh credential update at
`credEx` / `reqEx`, the params mapping is not the mapping recovered from
the intercepted request: the stale key `foo` survives, so the update is
a field-by-field merge, and only the headers are replaced wholesale. -/
theorem claim_C5_counterexample :
    (refreshCredUpdate credEx (some reqEx)).params ≠ specWholesaleParams reqEx
  ∧ dictGet (refreshCredUpdate credEx (some reqEx)).params "foo" = some "bar" := by
  constructor <;> decide

/-- Claim C5 as amended: after a successful refresh the headers mapping
is replaced wholesale by the intercepted request's headers, while the
query-params mapping is updated in place: every key other than
`uniqueSessionId` keeps its previous value, `uniqueSessionId` is set to
the first intercepted value when one is present, and the params are
completely unchanged when the parameter is absent. -/
theorem claim_C5 (c : Credentials) (r : Request) :
    (refreshCredUpdate c (some r)).headers = r.all_headers
  ∧ (∀ k, k ≠ "uniqueSessionId" →
      dictGet (refreshCredUpdate c (some r)).params k = dictGet c.params k)
  ∧ (∀ v vs, parse_qs_get r.urlQuery "uniqueSessionId" = v :: vs →
      dictGet (refreshCredUpdate c (some r)).params "uniqueSessionId" = some v)
  ∧ (parse_qs_get r.urlQuery "uniqueSessionId" = [] →
      (refreshCredUpdate c (some r)).params = c.params) := by
  refine ⟨rfl, ?_, ?_, ?_⟩ <;>
    simp only [refreshCredUpdate, update_params_from_request]
  · intro k hk
    cases hq : parse_qs_get r.urlQuery "uniqueSessionId" with
    | nil => simp [hq]
    | cons v vs => simp [hq, dictGet_dictSet_ne c.params "uniqueSessionId" v k hk]
  · intro v vs hq
    simp [hq, dictGet_dictSet_self]
  · intro hq
    simp [hq]

/-- Claim C5, witness: the amended claim at `credEx` / `reqEx`. -/
theorem claim_C5_witness :
    (refreshCredUpdate credEx (some reqEx)).headers = reqEx.all_headers
  ∧ dictGet (refreshCredUpdate credEx (some reqEx)).params "foo"
      = dictGet credEx.params "foo"
  ∧ dictGet (refreshCredUpdate credEx (some reqEx)).params "uniqueSessionId"
      = some "abc123" :=
  ⟨(claim_C5 credEx reqEx).1,
   (claim_C5 credEx reqEx).2.1 "foo" (by decide),
   (claim_C5 credEx reqEx).2.2.1 "abc123" [] (by decide)⟩

/-- Claim C6: `fetch` filtering gives identical results for the same ids
however they are passed — a scalar behaves as its singleton collection,
an integer id behaves as its decimal string, and any two `course_ids`
arguments normalising to the same set of strings (in particular the same
ids as a list, tuple or set, in any order) give the same `fetch`
outcome. -/
theorem claim_C6 :
    (∀ v, normalizeIds (.scalar v) = normalizeIds (.coll [v]))
  ∧ (∀ n : Int, normalizeIds (.scalar (.intId n))
      = normalizeIds (.scalar (.strId (toString n))))
  ∧ (∀ (r : RespBody) (ids1 ids2 : CourseIds),
      (normalizeIds ids1).toFinset = (normalizeIds ids2).toFinset →
      fetchBody (some r) (some ids1) = fetchBody (some r) (some ids2)) := by
  refine ⟨fun v => rfl, fun n => rfl, fun r ids1 ids2 h => ?_⟩
  simp only [fetchBody]
  cases r.data with
  | none => rfl
  | some cs =>
    have hmem : ∀ s : String,
        (normalizeIds ids1).contains s = (normalizeIds ids2).contains s := by
      intro s
      have hiff : s ∈ normalizeIds ids1 ↔ s ∈ normalizeIds ids2 := by
        rw [← List.mem_toFinset, ← List.mem_toFinset, h]
      rw [Bool.eq_iff_iff]
      simpa using hiff
    exact congrArg Except.ok
      (List.filter_congr
        (fun (c : Candidate) (_ : c ∈ cs) => hmem c.courseReferenceNumber))

/-- Claim C6, witness: the same two ids as an int/str list and as a
reordered, duplicated all-string collection (a set iterated in another
order) give the same `fetch` outcome. -/
theorem claim_C6_witness :
    fetchBody (some respEx) (some (.coll [.intId 31375, .strId "31376"]))
      = fetchBody (some respEx)
          (some (.coll [.strId "31376", .strId "31375", .intId 31375])) :=
  claim_C6.2.2 respEx _ _ (by decide)

/-- Claim C7: `_update_params_from_request` stores exactly the first
intercepted `uniqueSessionId` value when the parameter has a non-empty
value list, and leaves the params untouched (so the key stays absent,
never becomes the empty string) when the parameter is absent from the
query string. -/
theorem claim_C7 (params : Dict) (r : Request) :
    (∀ v vs, parse_qs_get r.urlQuery "uniqueSessionId" = v :: vs →
      dictGet (update_params_from_request params (some r)) "uniqueSessionId"
        = some v)
  ∧ (parse_qs_get r.urlQuery "uniqueSessionId" = [] →
      update_params_from_request params (some r) = params) := by
  constructor
  · intro v vs hq
    simp [update_params_from_request, hq, dictGet_dictSet_self]
  · intro hq
    simp [update_params_from_request, hq]

/-- Claim C7, witness: at `reqEx` the first session id `abc123` is
stored; at `reqNoSid` (no non-empty `uniqueSessionId` value) the params
are unchanged, so the key stays absent. -/
theorem claim_C7_witness :
    dictGet (update_params_from_request [("a", "b")] (some reqEx))
      "uniqueSessionId" = some "abc123"
  ∧ update_params_from_request [("a", "b")] (some reqNoSid) = [("a", "b")] :=
  ⟨(claim_C7 [("a", "b")] reqEx).1 "abc123" [] (by decide),
   (claim_C7 [("a", "b")] reqNoSid).2 (by decide)⟩

/-- Claim C8.  The claim says: with the retry and trust buttons both
visible the DUO wait loop still makes progress, preferring the
trust-button branch.  The code's `if/elif/elif` chain has no branch for
that state: the iteration takes no action at all, and with that state
observed at every poll the loop never terminates, for any iteration
bound and any starting index. -/
theorem claim_C8 :
    duoStep bothVisible = .noAction
  ∧ (∀ fuel i, duoLoop (fun _ => bothVisible) fuel i = none) := by
  refine ⟨rfl, fun fuel => ?_⟩
  induction fuel with
  | zero => intro i; rfl
  | succ n ih =>
    intro i
    have hstep : duoLoop (fun _ => bothVisible) (n + 1) i
        = (duoLoop (fun _ => bothVisible) n (i + 1)).map
            (fun as => DuoAction.noAction :: as) := rfl
    rw [hstep, ih]
    rfl

/-- Claim C9: every `fetch` call first writes `txt_subject` and
`txt_courseNumber` into the shared params (leaving all other keys as
they were), and the params come out mutated like this whether the call
returns or raises — the update happens before the GET and is never
rolled back. -/
theorem claim_C9 (params : Dict) (abb num : String) (ids : Option CourseIds)
    (resp : Option RespBody) :
    dictGet (fetch params abb num ids resp).newParams "txt_subject" = some abb
  ∧ dictGet (fetch params abb num ids resp).newParams "txt_courseNumber" = some num
  ∧ (∀ k, k ≠ "txt_subject" → k ≠ "txt_courseNumber" →
      dictGet (fetch params abb num ids resp).newParams k = dictGet params k) := by
  refine ⟨?_, ?_, ?_⟩
  · show dictGet (fetchParamsUpdate params abb num) "txt_subject" = some abb
    unfold fetchParamsUpdate
    rw [dictGet_dictSet_ne _ _ _ _ (by decide), dictGet_dictSet_self]
  · exact dictGet_dictSet_self _ _ _
  · intro k h1 h2
    show dictGet (fetchParamsUpdate params abb num) k = dictGet params k
    unfold fetchParamsUpdate
    rw [dictGet_dictSet_ne _ _ _ _ h2, dictGet_dictSet_ne _ _ _ _ h1]

/-- Claim C9, witness: a `fetch` whose GET body is not valid JSON raises
(`jsonDecodeError` outcome), yet the shared params carry the two keys
just written and keep the unrelated key `x`. -/
theorem claim_C9_witness :
    (fetch [("x", "y")] "CS" "421" none none).outcome = .error .jsonDecodeError
  ∧ dictGet (fetch [("x", "y")] "CS" "421" none none).newParams "txt_subject"
      = some "CS"
  ∧ dictGet (fetch [("x", "y")] "CS" "421" none none).newParams "txt_courseNumber"
      = some "421"
  ∧ dictGet (fetch [("x", "y")] "CS" "421" none none).newParams "x"
      = dictGet [("x", "y")] "x" :=
  ⟨rfl,
   (claim_C9 [("x", "y")] "CS" "421" none none).1,
   (claim_C9 [("x", "y")] "CS" "421" none none).2.1,
   (claim_C9 [("x", "y")] "CS" "421" none none).2.2 "x" (by decide) (by decide)⟩

/-- Claim C10: with an intercepted request of `None`, both credential
helpers return leaving headers and params untouched, so the credential
step of `refresh` completes as the identity. -/
theorem claim_C10 (headers params : Dict) :
    update_headers_from_request headers none = headers
  ∧ update_params_from_request params none = params
  ∧ refreshCredUpdate { headers := headers, params := params } none
      = { headers := headers, params := params } :=
  ⟨rfl, rfl, rfl⟩

end SnowCat
